import Mathlib

/-!
Shallow embedding of `hw/arm/virt-cortex-m.c` (the virt_cortex_m machine):
the board parameter store (three int64 fields with get/set accessors and
instance-init defaults) and the board assembly routine `virt_cortex_m_init`,
modelled as a pure function emitting a trace of calls into the external
QEMU subsystems (memory regions, qdev properties, realize, clock scale,
kernel loader).  C machine-integer semantics (int64 wrap-around, truncation
to 32-bit `int`, conversion to `uint32_t`) are made explicit.
-/

namespace VirtCortexM

/-- Two's-complement truncation of an integer to a signed 32-bit `int`,
as performed by the C conversion to `int`. -/
def toInt32 (x : Int) : Int :=
  let r := x % 4294967296
  if r < 2147483648 then r else r - 4294967296

/-- Two's-complement wrap-around of an integer to a signed 64-bit `int64_t`,
the effective behaviour of `int64_t` arithmetic. -/
def toInt64 (x : Int) : Int :=
  let r := x % 18446744073709551616
  if r < 9223372036854775808 then r else r - 18446744073709551616

/-- Conversion of an integer to `uint32_t` (reduction mod 2^32), as performed
by the C conversion at the `qdev_prop_set_uint32` call. -/
def toUInt32n (x : Int) : Nat := (x % 4294967296).toNat

/-- Constant `NANOSECONDS_PER_SECOND` from qemu/timer.h (1000000000LL). -/
def NANOSECONDS_PER_SECOND : Int := 1000000000

/-- State record `VirtCortexMMachineState`: the inherited `MachineState`
fields read by `virt_cortex_m_init` (`ram_size` is a `ram_addr_t`, i.e.
`uint64_t`, modelled as `Nat`; `cpu_type`; `kernel_filename`, where a NULL
pointer is modelled as `none`), plus the three board parameters
`flash_size_kb`, `freq_mhz`, `num_irq`, all of C type `int64_t`. -/
structure VirtCortexMMachineState where
  ram_size : Nat
  cpu_type : String
  kernel_filename : Option String
  flash_size_kb : Int
  freq_mhz : Int
  num_irq : Int
  deriving DecidableEq

/-- Calls into external QEMU subsystems made by `virt_cortex_m_init`,
recorded in program order. -/
inductive Event where
  /-- call `memory_region_init_rom(flash, NULL, name, size, &error_fatal)` -/
  | init_rom (name : String) (size : Int)
  /-- call `memory_region_add_subregion(system_memory, base, region)` -/
  | add_subregion (base : Nat) (name : String)
  /-- call `memory_region_init_ram(sram, NULL, name, size, &error_fatal)` -/
  | init_ram (name : String) (size : Int)
  /-- call `qdev_prop_set_uint32(nvic, "num-irq", n)` -/
  | set_num_irq (n : Nat)
  /-- call `qdev_prop_set_string(nvic, "cpu-type", s)` -/
  | set_cpu_type (s : String)
  /-- call `qdev_prop_set_bit(nvic, "enable-bitband", b)` -/
  | set_enable_bitband (b : Bool)
  /-- call `object_property_set_link(nvic, "memory", system_memory, &error_abort)` -/
  | set_memory_link
  /-- call `sysbus_realize(SYS_BUS_DEVICE(nvic), &error_fatal)`, with its outcome -/
  | realize (ok : Bool)
  /-- assignment `system_clock_scale = v` (the global is a C `int`) -/
  | set_system_clock_scale (v : Int)
  /-- call `armv7m_load_kernel(ARM_CPU(first_cpu), kernel_filename, mem_size)` -/
  | load_kernel (kernel : Option String) (mem_size : Int)
  deriving DecidableEq

/-- Function `virt_cortex_m_init`: the board assembly routine.  It takes the
machine state and the outcome of the external `sysbus_realize` call and
returns the machine state it leaves behind together with the trace of
external calls, in program order.  `flash_size` and `sram_size` are C `int`
(32-bit) locals; `m->flash_size_kb * 1024` is `int64_t` arithmetic;
`m->freq_mhz * 1000 * 1000` is `int64_t` arithmetic, divided into
`NANOSECONDS_PER_SECOND` with C truncating division, the quotient being
stored in the `int` global `system_clock_scale`.  When realize fails the
function returns before the last two calls. -/
def virt_cortex_m_init (m : VirtCortexMMachineState) (realize_ok : Bool) :
    VirtCortexMMachineState × List Event :=
  let flash_size : Int := toInt32 (toInt64 (m.flash_size_kb * 1024))
  let sram_size : Int := toInt32 ((m.ram_size : Int))
  let pre : List Event :=
    [ .init_rom "virt_cortex_m.flash" flash_size,
      .add_subregion 0 "virt_cortex_m.flash",
      .init_ram "virt_cortex_m.sram" sram_size,
      .add_subregion 0x20000000 "virt_cortex_m.sram",
      .set_num_irq (toUInt32n m.num_irq),
      .set_cpu_type m.cpu_type,
      .set_enable_bitband true,
      .set_memory_link,
      .realize realize_ok ]
  if realize_ok then
    let scale : Int :=
      toInt32 (Int.tdiv NANOSECONDS_PER_SECOND
        (toInt64 (toInt64 (m.freq_mhz * 1000) * 1000)))
    (m, pre ++ [ .set_system_clock_scale scale,
                 .load_kernel m.kernel_filename flash_size ])
  else
    (m, pre)

/-- Setter `flash_size_set`: stores the int64 delivered by the visitor into
`m->flash_size_kb`. -/
def flash_size_set (m : VirtCortexMMachineState) (v : Int) :
    VirtCortexMMachineState :=
  { m with flash_size_kb := v }

/-- Getter `flash_size_get`: reads `m->flash_size_kb` out through the
visitor. -/
def flash_size_get (m : VirtCortexMMachineState) : Int :=
  m.flash_size_kb

/-- Setter `freq_mhz_set`: stores the int64 delivered by the visitor into
`m->freq_mhz`. -/
def freq_mhz_set (m : VirtCortexMMachineState) (v : Int) :
    VirtCortexMMachineState :=
  { m with freq_mhz := v }

/-- Getter `freq_mhz_get`: reads `m->freq_mhz` out through the visitor. -/
def freq_mhz_get (m : VirtCortexMMachineState) : Int :=
  m.freq_mhz

/-- Setter `num_irq_set`: stores the int64 delivered by the visitor into
`m->num_irq`. -/
def num_irq_set (m : VirtCortexMMachineState) (v : Int) :
    VirtCortexMMachineState :=
  { m with num_irq := v }

/-- Getter `num_irq_get`: reads `m->num_irq` out through the visitor. -/
def num_irq_get (m : VirtCortexMMachineState) : Int :=
  m.num_irq

/-- Function `virt_cortex_m_instance_init`: sets the three board parameters
to their defaults (`1 * 1024`, `50`, `64`) on the freshly created
instance. -/
def virt_cortex_m_instance_init (m : VirtCortexMMachineState) :
    VirtCortexMMachineState :=
  { m with flash_size_kb := 1 * 1024, freq_mhz := 50, num_irq := 64 }

/-- Recognizer for the clock-scale publication event (step 6). -/
def is_clock_publish : Event → Bool
  | .set_system_clock_scale _ => true
  | _ => false

/-- Recognizer for the boot-loader invocation event (step 7). -/
def is_loader_call : Event → Bool
  | .load_kernel _ _ => true
  | _ => false

/-- A machine with all three board parameters at their defaults and a
representative system request (64 KiB of RAM, the default CPU type, no
kernel image). -/
def mdef : VirtCortexMMachineState :=
  { ram_size := 65536, cpu_type := "cortex-m3", kernel_filename := none,
    flash_size_kb := 1024, freq_mhz := 50, num_irq := 64 }

/-- Truncating to `int` after an `int64_t` wrap-around is the same as
truncating the mathematical value to `int` directly. -/
theorem toInt32_toInt64 (x : Int) : toInt32 (toInt64 x) = toInt32 x := by
  simp only [toInt32, toInt64]
  split <;> split <;> split <;> omega

/-- Truncation to `int` is the identity on `[0, 2^31)`. -/
theorem toInt32_of_lt (x : Int) (h0 : 0 ≤ x) (h1 : x < 2147483648) :
    toInt32 x = x := by
  simp only [toInt32]; split <;> omega

/-- Wrap-around to `int64_t` is the identity on `[0, 2^63)`. -/
theorem toInt64_of_lt (x : Int) (h0 : 0 ≤ x) (h1 : x < 9223372036854775808) :
    toInt64 x = x := by
  simp only [toInt64]; split <;> omega

/-- Truncation to `int` always lands in `[-2^31, 2^31)`. -/
theorem toInt32_bounds (x : Int) :
    -2147483648 ≤ toInt32 x ∧ toInt32 x < 2147483648 := by
  simp only [toInt32]; split <;> omega

/-- C3: if realization of the interrupt controller fails, assembly stops at
that point: the trace ends with the failed realize call, no clock-scale
value is published (step 6) and the boot loader is never invoked
(step 7). -/
theorem realize_failure_stops_assembly (m : VirtCortexMMachineState) :
    ((virt_cortex_m_init m false).2.filter is_clock_publish = [] ∧
     (virt_cortex_m_init m false).2.filter is_loader_call = [] ∧
     (virt_cortex_m_init m false).2.getLast? = some (Event.realize false)) :=
  ⟨rfl, rfl, rfl⟩

/-- C5: on instance creation, before any external configuration is applied,
the three board parameters default to `flash_size_kb = 1024`,
`freq_mhz = 50`, `num_irq = 64`. -/
theorem instance_init_defaults (m : VirtCortexMMachineState) :
    ((virt_cortex_m_instance_init m).flash_size_kb = 1024 ∧
     (virt_cortex_m_instance_init m).freq_mhz = 50 ∧
     (virt_cortex_m_instance_init m).num_irq = 64) :=
  ⟨rfl, rfl, rfl⟩

/-- C6: for each of the three board parameters and every int64 value `v`,
setting the parameter to `v` via its set accessor and then reading it via
its get accessor returns `v`. -/
theorem param_set_get_roundtrip (m : VirtCortexMMachineState) (v : Int) :
    (flash_size_get (flash_size_set m v) = v ∧
     freq_mhz_get (freq_mhz_set m v) = v ∧
     num_irq_get (num_irq_set m v) = v) :=
  ⟨rfl, rfl, rfl⟩

/-- Machine of the C8 scenario: `flash_size_kb = 64`, `freq_mhz = 25`,
`num_irq = 32`, requested RAM size 16384. -/
def m8 : VirtCortexMMachineState :=
  { ram_size := 16384, cpu_type := "cortex-m3", kernel_filename := none,
    flash_size_kb := 64, freq_mhz := 25, num_irq := 32 }

/-- C8: with `flash_size_kb = 64`, `freq_mhz = 25`, `num_irq = 32` and
requested RAM size 16384, assembly creates a flash region of size 65536
mapped at base 0 (covering [0, 65536)), a RAM region of size 16384 mapped
at base 0x20000000 (covering [0x20000000, 0x20004000)), publishes clock
scale 40, and configures the interrupt controller with 32 lines. -/
theorem scenario_64kb_25mhz_32irq :
    (Event.init_rom "virt_cortex_m.flash" 65536 ∈ (virt_cortex_m_init m8 true).2 ∧
     Event.add_subregion 0 "virt_cortex_m.flash" ∈ (virt_cortex_m_init m8 true).2 ∧
     Event.init_ram "virt_cortex_m.sram" 16384 ∈ (virt_cortex_m_init m8 true).2 ∧
     Event.add_subregion 0x20000000 "virt_cortex_m.sram" ∈ (virt_cortex_m_init m8 true).2 ∧
     Event.set_system_clock_scale 40 ∈ (virt_cortex_m_init m8 true).2 ∧
     Event.set_num_irq 32 ∈ (virt_cortex_m_init m8 true).2) := by
  decide

/-- C9: assembly never modifies the three board parameters: whether it
completes (`realize_ok = true`) or aborts at the failed realize
(`realize_ok = false`), the machine state it leaves holds the same
`flash_size_kb`, `freq_mhz` and `num_irq` it started with. -/
theorem assembly_preserves_board_params (m : VirtCortexMMachineState)
    (realize_ok : Bool) :
    ((virt_cortex_m_init m realize_ok).1.flash_size_kb = m.flash_size_kb ∧
     (virt_cortex_m_init m realize_ok).1.freq_mhz = m.freq_mhz ∧
     (virt_cortex_m_init m realize_ok).1.num_irq = m.num_irq) := by
  cases realize_ok <;> exact ⟨rfl, rfl, rfl⟩

/-- C2 (amended): for every configured `flash_size_kb` whose byte size
`flash_size_kb * 1024` is positive and representable in the 32-bit `int`
local `flash_size`, the flash region is created with size exactly
`flash_size_kb * 1024` bytes and mapped into the global address space at
base address 0, whether or not realize later succeeds. -/
theorem flash_region_size_and_base (m : VirtCortexMMachineState)
    (realize_ok : Bool) (h0 : 0 < m.flash_size_kb)
    (h1 : m.flash_size_kb * 1024 < 2147483648) :
    (Event.init_rom "virt_cortex_m.flash" (m.flash_size_kb * 1024) ∈
        (virt_cortex_m_init m realize_ok).2 ∧
     Event.add_subregion 0 "virt_cortex_m.flash" ∈
        (virt_cortex_m_init m realize_ok).2) := by
  have hs : toInt32 (toInt64 (m.flash_size_kb * 1024)) = m.flash_size_kb * 1024 := by
    rw [toInt32_toInt64]
    exact toInt32_of_lt _ (by omega) h1
  cases realize_ok <;> simp [virt_cortex_m_init, hs]

/-- Witness for C2 at the default flash size 1024 KiB. -/
theorem flash_region_size_and_base_witness :
    ((0 : Int) < 1024 ∧ (1024 : Int) * 1024 < 2147483648 ∧
     Event.init_rom "virt_cortex_m.flash" (1024 * 1024) ∈
        (virt_cortex_m_init mdef true).2 ∧
     Event.add_subregion 0 "virt_cortex_m.flash" ∈
        (virt_cortex_m_init mdef true).2) :=
  ⟨by decide, by decide,
   (flash_region_size_and_base mdef true (by decide) (by decide)).1,
   (flash_region_size_and_base mdef true (by decide) (by decide)).2⟩

/-- Machine refuting C2 as stated: `flash_size_kb = 4194304` (= 2^22), so
`flash_size_kb * 1024 = 2^32` truncates to 0 in the `int` local. -/
def mC2 : VirtCortexMMachineState :=
  { ram_size := 65536, cpu_type := "cortex-m3", kernel_filename := none,
    flash_size_kb := 4194304, freq_mhz := 50, num_irq := 64 }

/-- Counterexample to C2 as stated: with `flash_size_kb = 4194304 > 0` the
flash region is created with size 0 (the full trace shows the only
`init_rom` call carries size 0), strictly less than
`flash_size_kb * 1024 = 4294967296`. -/
theorem flash_size_claim_fails_on_truncation :
    ((virt_cortex_m_init mC2 true).2 =
      [ Event.init_rom "virt_cortex_m.flash" 0,
        Event.add_subregion 0 "virt_cortex_m.flash",
        Event.init_ram "virt_cortex_m.sram" 65536,
        Event.add_subregion 536870912 "virt_cortex_m.sram",
        Event.set_num_irq 64,
        Event.set_cpu_type "cortex-m3",
        Event.set_enable_bitband true,
        Event.set_memory_link,
        Event.realize true,
        Event.set_system_clock_scale 20,
        Event.load_kernel none 0 ] ∧
     (0 : Int) < mC2.flash_size_kb ∧
     (0 : Int) < mC2.flash_size_kb * 1024) := by
  decide

/-- C4 (amended): the RAM region is always mapped into the global address
space at base address 0x20000000 (= 536870912), independent of the
configured flash size and of the realize outcome; and whenever the
requested RAM size is representable in the 32-bit `int` local `sram_size`,
the RAM region is created with size exactly the requested size. -/
theorem ram_region_base_and_size (m : VirtCortexMMachineState)
    (realize_ok : Bool) :
    (Event.add_subregion 536870912 "virt_cortex_m.sram" ∈
        (virt_cortex_m_init m realize_ok).2 ∧
     (m.ram_size < 2147483648 →
        Event.init_ram "virt_cortex_m.sram" ((m.ram_size : Int)) ∈
          (virt_cortex_m_init m realize_ok).2)) := by
  constructor
  · cases realize_ok <;> simp [virt_cortex_m_init]
  · intro h
    have hs : toInt32 ((m.ram_size : Int)) = (m.ram_size : Int) :=
      toInt32_of_lt _ (by omega) (by omega)
    cases realize_ok <;> simp [virt_cortex_m_init, hs]

/-- Witness for C4 at requested RAM size 65536. -/
theorem ram_region_base_and_size_witness :
    (Event.add_subregion 536870912 "virt_cortex_m.sram" ∈
        (virt_cortex_m_init mdef true).2 ∧
     mdef.ram_size < 2147483648 ∧
     Event.init_ram "virt_cortex_m.sram" (((65536 : Nat) : Int)) ∈
        (virt_cortex_m_init mdef true).2) :=
  ⟨(ram_region_base_and_size mdef true).1, by decide,
   (ram_region_base_and_size mdef true).2 (by decide)⟩

/-- Machine refuting C4 as stated: requested RAM size 4294967296 (= 2^32)
truncates to 0 in the `int` local `sram_size`. -/
def mC4 : VirtCortexMMachineState :=
  { ram_size := 4294967296, cpu_type := "cortex-m3", kernel_filename := none,
    flash_size_kb := 1024, freq_mhz := 50, num_irq := 64 }

/-- Counterexample to C4 as stated: with requested RAM size 4294967296 the
RAM region is created with size 0 (the full trace shows the only
`init_ram` call carries size 0), strictly less than the requested size. -/
theorem ram_size_claim_fails_on_truncation :
    ((virt_cortex_m_init mC4 true).2 =
      [ Event.init_rom "virt_cortex_m.flash" 1048576,
        Event.add_subregion 0 "virt_cortex_m.flash",
        Event.init_ram "virt_cortex_m.sram" 0,
        Event.add_subregion 536870912 "virt_cortex_m.sram",
        Event.set_num_irq 64,
        Event.set_cpu_type "cortex-m3",
        Event.set_enable_bitband true,
        Event.set_memory_link,
        Event.realize true,
        Event.set_system_clock_scale 20,
        Event.load_kernel none 1048576 ] ∧
     (0 : Int) < (mC4.ram_size : Int)) := by
  decide

/-- C10: the sizes passed to region creation are the 32-bit `int`
truncations of `flash_size_kb * 1024` and of the requested RAM size; in
particular, for every `flash_size_kb ≥ 2^21` the created flash region's
size is strictly below `flash_size_kb * 1024`, so the two differ. -/
theorem region_sizes_truncated_to_int32 (m : VirtCortexMMachineState)
    (realize_ok : Bool) :
    (Event.init_rom "virt_cortex_m.flash" (toInt32 (m.flash_size_kb * 1024)) ∈
        (virt_cortex_m_init m realize_ok).2 ∧
     Event.init_ram "virt_cortex_m.sram" (toInt32 ((m.ram_size : Int))) ∈
        (virt_cortex_m_init m realize_ok).2 ∧
     (2097152 ≤ m.flash_size_kb →
        toInt32 (m.flash_size_kb * 1024) < m.flash_size_kb * 1024)) := by
  refine ⟨?_, ?_, ?_⟩
  · cases realize_ok <;> simp [virt_cortex_m_init, toInt32_toInt64]
  · cases realize_ok <;> simp [virt_cortex_m_init]
  · intro h
    have hb := toInt32_bounds (m.flash_size_kb * 1024)
    omega

/-- Machine with `flash_size_kb = 2097152` (= 2^21), the smallest flash
size whose byte count overflows the 32-bit `int` local. -/
def m10 : VirtCortexMMachineState :=
  { ram_size := 65536, cpu_type := "cortex-m3", kernel_filename := none,
    flash_size_kb := 2097152, freq_mhz := 50, num_irq := 64 }

/-- Witness for C10 at `flash_size_kb = 2097152` (= 2^21): the flash region
is created with the truncated size `toInt32 (2^21 * 1024) = -2^31`, below
the untruncated `2^31`. -/
theorem region_sizes_truncated_to_int32_witness :
    (Event.init_rom "virt_cortex_m.flash" (toInt32 (2097152 * 1024)) ∈
        (virt_cortex_m_init m10 true).2 ∧
     (2097152 : Int) ≤ 2097152 ∧
     toInt32 ((2097152 : Int) * 1024) < (2097152 : Int) * 1024) :=
  ⟨(region_sizes_truncated_to_int32 m10 true).1, by decide,
   (region_sizes_truncated_to_int32 m10 true).2.2 (by decide)⟩

/-- C7 (amended): during assembly, for every configuration, the interrupt
controller is configured — before it is realized — with line count equal
to `num_irq` reduced to `uint32_t`, CPU variant equal to the requested
`cpu_type` string, bit-band addressing enabled, and a link to the global
address space; whenever `0 ≤ num_irq < 2^32` that line count equals the
configured `num_irq` itself.  Ordering is stated by trace indices. -/
theorem nvic_config_before_realize (m : VirtCortexMMachineState)
    (realize_ok : Bool) :
    ∃ i1 i2 i3 i4 j : Nat, i1 < j ∧ i2 < j ∧ i3 < j ∧ i4 < j ∧
      (virt_cortex_m_init m realize_ok).2[i1]? =
        some (Event.set_num_irq (toUInt32n m.num_irq)) ∧
      (virt_cortex_m_init m realize_ok).2[i2]? =
        some (Event.set_cpu_type m.cpu_type) ∧
      (virt_cortex_m_init m realize_ok).2[i3]? =
        some (Event.set_enable_bitband true) ∧
      (virt_cortex_m_init m realize_ok).2[i4]? =
        some Event.set_memory_link ∧
      (virt_cortex_m_init m realize_ok).2[j]? =
        some (Event.realize realize_ok) ∧
      (0 ≤ m.num_irq → m.num_irq < 4294967296 →
        (toUInt32n m.num_irq : Int) = m.num_irq) := by
  refine ⟨4, 5, 6, 7, 8, by omega, by omega, by omega, by omega,
    ?_, ?_, ?_, ?_, ?_,
    by intro h0 h1; simp only [toUInt32n]; omega⟩ <;>
  cases realize_ok <;> simp [virt_cortex_m_init]

/-- Witness for C7 at the default configuration (`num_irq = 64`), where the
uint32-reduced line count evaluates to 64, the configured value. -/
theorem nvic_config_before_realize_witness :
    ((∃ i1 i2 i3 i4 j : Nat, i1 < j ∧ i2 < j ∧ i3 < j ∧ i4 < j ∧
      (virt_cortex_m_init mdef true).2[i1]? =
        some (Event.set_num_irq (toUInt32n 64)) ∧
      (virt_cortex_m_init mdef true).2[i2]? =
        some (Event.set_cpu_type "cortex-m3") ∧
      (virt_cortex_m_init mdef true).2[i3]? =
        some (Event.set_enable_bitband true) ∧
      (virt_cortex_m_init mdef true).2[i4]? =
        some Event.set_memory_link ∧
      (virt_cortex_m_init mdef true).2[j]? =
        some (Event.realize true) ∧
      (0 ≤ mdef.num_irq → mdef.num_irq < 4294967296 →
        (toUInt32n mdef.num_irq : Int) = mdef.num_irq)) ∧
     (toUInt32n 64 : Int) = 64) :=
  ⟨nvic_config_before_realize mdef true, by decide⟩

/-- Machine refuting C7 as stated: `num_irq = 4294967296` (= 2^32)
truncates to 0 at the `qdev_prop_set_uint32` call. -/
def mC7 : VirtCortexMMachineState :=
  { ram_size := 65536, cpu_type := "cortex-m3", kernel_filename := none,
    flash_size_kb := 1024, freq_mhz := 50, num_irq := 4294967296 }

/-- Counterexample to C7 as stated: with configured `num_irq = 4294967296`
the interrupt controller's line count is set to 0 (the full trace shows
the only `set_num_irq` call carries 0), strictly below the configured
value. -/
theorem nvic_num_irq_fails_on_uint32_truncation :
    ((virt_cortex_m_init mC7 true).2 =
      [ Event.init_rom "virt_cortex_m.flash" 1048576,
        Event.add_subregion 0 "virt_cortex_m.flash",
        Event.init_ram "virt_cortex_m.sram" 65536,
        Event.add_subregion 536870912 "virt_cortex_m.sram",
        Event.set_num_irq 0,
        Event.set_cpu_type "cortex-m3",
        Event.set_enable_bitband true,
        Event.set_memory_link,
        Event.realize true,
        Event.set_system_clock_scale 20,
        Event.load_kernel none 1048576 ] ∧
     ((0 : Nat) : Int) < mC7.num_irq) := by
  decide

/-- C1 (amended): for every configured `freq_mhz > 0` such that
`freq_mhz * 1000000` does not overflow `int64_t`
(`freq_mhz * 1000000 < 2^63`), the clock-scale value published by assembly
equals `1000000000 / (freq_mhz * 1000000)` under integer division; in
particular `freq_mhz = 50` yields 20 and `freq_mhz = 1` yields 1000. -/
theorem clock_scale_matches_formula (m : VirtCortexMMachineState)
    (h0 : 0 < m.freq_mhz)
    (h1 : m.freq_mhz * 1000000 < 9223372036854775808) :
    Event.set_system_clock_scale (1000000000 / (m.freq_mhz * 1000000)) ∈
      (virt_cortex_m_init m true).2 := by
  have h2 : toInt64 (m.freq_mhz * 1000) = m.freq_mhz * 1000 :=
    toInt64_of_lt _ (by omega) (by omega)
  have h3 : toInt64 (m.freq_mhz * 1000 * 1000) = m.freq_mhz * 1000000 := by
    rw [show m.freq_mhz * 1000 * 1000 = m.freq_mhz * 1000000 by ring]
    exact toInt64_of_lt _ (by omega) h1
  have h4 : Int.tdiv 1000000000 (m.freq_mhz * 1000000) =
      1000000000 / (m.freq_mhz * 1000000) :=
    Int.tdiv_eq_ediv (by norm_num) (by omega)
  have h5 : toInt32 (1000000000 / (m.freq_mhz * 1000000)) =
      1000000000 / (m.freq_mhz * 1000000) := by
    refine toInt32_of_lt _ (Int.ediv_nonneg (by norm_num) (by omega)) ?_
    have := Int.ediv_le_self (m.freq_mhz * 1000000)
      (show (0 : Int) ≤ 1000000000 by norm_num)
    omega
  have hscale : toInt32 (Int.tdiv NANOSECONDS_PER_SECOND
      (toInt64 (toInt64 (m.freq_mhz * 1000) * 1000))) =
      1000000000 / (m.freq_mhz * 1000000) := by
    rw [NANOSECONDS_PER_SECOND, h2, h3, h4, h5]
  simp [virt_cortex_m_init, hscale]

/-- Witness for C1 at the default frequency 50 MHz, where the published
scale is `1000000000 / 50000000 = 20`. -/
theorem clock_scale_matches_formula_witness :
    ((0 : Int) < 50 ∧ (50 : Int) * 1000000 < 9223372036854775808 ∧
     Event.set_system_clock_scale (1000000000 / ((50 : Int) * 1000000)) ∈
       (virt_cortex_m_init mdef true).2 ∧
     (1000000000 : Int) / ((50 : Int) * 1000000) = 20) :=
  ⟨by decide, by decide,
   clock_scale_matches_formula mdef (by decide) (by decide), by decide⟩

/-- Machine refuting C1 as stated: `freq_mhz = 76480200929599801`, the
inverse of 15625 modulo 2^58, so that `freq_mhz * 1000 * 1000` wraps
around `int64_t` arithmetic to exactly 64. -/
def mC1 : VirtCortexMMachineState :=
  { ram_size := 65536, cpu_type := "cortex-m3", kernel_filename := none,
    flash_size_kb := 1024, freq_mhz := 76480200929599801, num_irq := 64 }

/-- Counterexample to C1 as stated: with configured
`freq_mhz = 76480200929599801 > 0`, the `int64_t` product
`freq_mhz * 1000 * 1000` wraps to 64, so assembly publishes clock scale
`1000000000 / 64 = 15625000` (the full trace's only clock publication),
while the claimed formula value `1000000000 / (freq_mhz * 1000000)` is 0,
strictly below it. -/
theorem clock_scale_formula_fails_on_int64_wrap :
    ((0 : Int) < mC1.freq_mhz ∧
     (virt_cortex_m_init mC1 true).2.filter is_clock_publish =
       [Event.set_system_clock_scale 15625000] ∧
     Event.set_system_clock_scale 15625000 ∈ (virt_cortex_m_init mC1 true).2 ∧
     1000000000 / (mC1.freq_mhz * 1000000) < 15625000) := by
  decide

end VirtCortexM
